import Mathlib

/-!
Verification development for the go-ardrive-turbo client library.

The Go source is shallowly embedded: pure record construction and control
flow are translated directly; external collaborators (the goar item signer,
the HTTP network round trip, JSON decoding) are modelled as oracle function
parameters, so every theorem quantifies over all of their behaviours.
Go `error` values are modelled by the inductive `Turbo.GoErr`, where
`fmt.Errorf("...: %w", err)` becomes `GoErr.wrap` and the transport error
`fmt.Errorf("HTTP %d: %s", status, body)` becomes `GoErr.httpStatus`.
Byte strings are `List Nat`; `int64` values are `Int`.
Observable side effects (event callback invocations, signer calls, HTTP
POST calls, stream creation and closing) are returned as an explicit
`Turbo.Action` trace in program order.
-/

namespace Turbo

/-- Go `context.Context` values, modelled as opaque identifiers. -/
abbrev Ctx := Nat

/-- Model of Go `error` values.
`wrap note e` embeds `fmt.Errorf(note ++ ": %w", e)`;
`httpStatus s b` embeds `fmt.Errorf("HTTP %d: %s", s, b)` so that the
status code and raw body carried by the error remain observable. -/
inductive GoErr where
  | msg (s : String)
  | httpStatus (status : Nat) (body : List Nat)
  | wrap (note : String) (cause : GoErr)
deriving DecidableEq, Repr

/-- `pkg/types`: `Tag` — a name/value metadata pair. -/
structure Tag where
  name : String
  value : String
deriving DecidableEq, Repr

/-- `pkg/signers/types.go`: `DataItem` — the unsigned upload payload. -/
structure DataItem where
  data : List Nat
  tags : List Tag
  target : String
  anchor : String
deriving DecidableEq, Repr

/-- `pkg/signers/types.go` `CreateDataItem`: builds a `DataItem` from the
provided parameters by plain field assignment. -/
def CreateDataItem (data : List Nat) (tags : List Tag) (target anchor : String) : DataItem :=
  { data := data, tags := tags, target := target, anchor := anchor }

/-- `github.com/everFinance/goar/types`: `Tag` as consumed by the external
item signer.  Kept distinct from `Turbo.Tag` to mirror the conversion loop
in `SignDataItem`. -/
structure GoarTag where
  name : String
  value : String
deriving DecidableEq, Repr

/-- `github.com/everFinance/goar/types`: the fields of `BundleItem` that the
client observes — the serialized signed binary and the item id. -/
structure BundleItem where
  itemBinary : List Nat
  id : String
deriving DecidableEq, Repr

/-- The tag conversion loop shared by `ArweaveSigner.SignDataItem` and
`EthereumSigner.SignDataItem`: `goarTags[i] = {Name: tag.Name, Value: tag.Value}`
for each index `i` of the input slice. -/
def goarTagsOf (tags : List Tag) : List GoarTag :=
  tags.map (fun t => { name := t.name, value := t.value })

/-- `pkg/signers/types.go` `ArweaveSigner.SignDataItem`.  The external
`itemSigner.CreateAndSignItem` call is the oracle `createAndSignItem`,
applied to exactly the arguments the Go code passes (data, target, anchor,
converted tags).  A zero-length `ItemBinary` on a non-error result is
turned into an error. -/
def ArweaveSignDataItem
    (createAndSignItem : List Nat → String → String → List GoarTag → Except GoErr BundleItem)
    (dataItem : DataItem) : Except GoErr BundleItem :=
  let goarTags := goarTagsOf dataItem.tags
  match createAndSignItem dataItem.data dataItem.target dataItem.anchor goarTags with
  | .error err => .error (.wrap "failed to create and sign data item" err)
  | .ok bundleItem =>
    if bundleItem.itemBinary.length = 0 then
      .error (.msg "failed to generate signed data item binary")
    else
      .ok bundleItem

/-- `pkg/signers/types.go` `EthereumSigner.SignDataItem`: identical control
flow to the Arweave variant, over the Ethereum wallet's item signer. -/
def EthereumSignDataItem
    (createAndSignItem : List Nat → String → String → List GoarTag → Except GoErr BundleItem)
    (dataItem : DataItem) : Except GoErr BundleItem :=
  let goarTags := goarTagsOf dataItem.tags
  match createAndSignItem dataItem.data dataItem.target dataItem.anchor goarTags with
  | .error err => .error (.wrap "failed to create and sign data item" err)
  | .ok bundleItem =>
    if bundleItem.itemBinary.length = 0 then
      .error (.msg "failed to generate signed data item binary")
    else
      .ok bundleItem

/-- The observable part of an HTTP response after its body has been read:
status code plus raw body bytes (`pkg/turbo/http.go` `Response`, and the
fields of `net/http.Response` that the client inspects). -/
structure HttpResponse where
  statusCode : Nat
  body : List Nat
deriving DecidableEq, Repr

/-- `pkg/turbo/client.go` `ParseJSON`: a status code outside 2xx becomes
the error `HTTP <status>: <body>`; otherwise the body is JSON-decoded
(decoding is the oracle `decode`), and a decode failure is wrapped. -/
def ParseJSON {α : Type} (decode : List Nat → Except GoErr α)
    (resp : HttpResponse) : Except GoErr α :=
  if resp.statusCode < 200 ∨ 300 ≤ resp.statusCode then
    .error (.httpStatus resp.statusCode resp.body)
  else
    match decode resp.body with
    | .error e => .error (.wrap "failed to decode JSON response" e)
    | .ok v => .ok v

/-- `pkg/turbo/http.go` `HTTPClient.Do`, response-classification step: after
the body has been read successfully, the response is returned, paired with
an error carrying status and body exactly when the status is `>= 400`. -/
def DoProcessResponse (statusCode : Nat) (respBody : List Nat) :
    HttpResponse × Option GoErr :=
  let response : HttpResponse := { statusCode := statusCode, body := respBody }
  if 400 ≤ statusCode then
    (response, some (.httpStatus statusCode respBody))
  else
    (response, none)

/-- `pkg/types`: `Balance` (string-field generation, as used by
`pkg/turbo/http.go` `GetBalance`). -/
structure Balance where
  winC : String
  credits : String
  currency : String
deriving DecidableEq, Repr

/-- The default balance literal that `GetBalance` returns for a 404
response and for an empty `winc` field. -/
def defaultBalance : Balance :=
  { winC := "0", credits := "0", currency := "USD" }

/-- The balance URL built by `pkg/turbo/http.go` `GetBalance`:
`fmt.Sprintf("%s/v1/account/balance/%s?address=%s", paymentURL, token, address)`. -/
def balanceUrl (paymentURL token address : String) : String :=
  paymentURL ++ "/v1/account/balance/" ++ token ++ "?address=" ++ address

/-- `pkg/turbo/http.go` `unauthenticatedClient.GetBalance`.  The network
round trip (`http.NewRequestWithContext` + `client.Do`) is the oracle
`get`, applied to the URL the Go code builds; its error is wrapped as
`failed to get balance`.  A 404 status returns `defaultBalance` before any
body parsing; otherwise the response goes through `ParseJSON`, and a
decoded balance whose `winc` field is empty is replaced by
`defaultBalance`. -/
def GetBalance (paymentURL token address : String)
    (get : String → Except GoErr HttpResponse)
    (decodeBalance : List Nat → Except GoErr Balance) : Except GoErr Balance :=
  match get (balanceUrl paymentURL token address) with
  | .error e => .error (.wrap "failed to get balance" e)
  | .ok resp =>
    if resp.statusCode = 404 then
      .ok defaultBalance
    else
      match ParseJSON decodeBalance resp with
      | .error e => .error e
      | .ok balance =>
        if balance.winC = "" then
          .ok defaultBalance
        else
          .ok balance

/-- `pkg/types`: `UploadCost` — the cost estimate for one byte count.  The
open-ended `Adjustments` map is opaque to every property proved here and
is omitted. -/
structure UploadCost where
  winc : String
  bytes : Int
deriving DecidableEq, Repr

/-- The per-count price URL built by `pkg/turbo/http.go` `GetUploadCosts`:
`fmt.Sprintf("%s/v1/price/bytes/%d", paymentURL, byteCount)`. -/
def costUrl (paymentURL : String) (byteCount : Int) : String :=
  paymentURL ++ "/v1/price/bytes/" ++ toString byteCount

/-- One iteration of the `GetUploadCosts` loop body for byte count
`byteCount`: GET the per-count URL (request construction and execution are
the oracle `get`), wrap a transport failure, then `ParseJSON` the response
and wrap a parse failure. -/
def costStep (paymentURL : String)
    (get : String → Except GoErr HttpResponse)
    (decodeCost : List Nat → Except GoErr UploadCost)
    (byteCount : Int) : Except GoErr UploadCost :=
  match get (costUrl paymentURL byteCount) with
  | .error e =>
    .error (.wrap ("failed to get upload cost for byte count " ++ toString byteCount) e)
  | .ok resp =>
    match ParseJSON decodeCost resp with
    | .error e =>
      .error (.wrap ("failed to parse response for byte count " ++ toString byteCount) e)
    | .ok cost => .ok cost

/-- `pkg/turbo/http.go` `unauthenticatedClient.GetUploadCosts`: one GET per
byte count, in input order, aborting at the first failure.  Returns the
result (cost list, or the first error) together with the list of URLs
actually requested, in request order. -/
def GetUploadCosts (paymentURL : String)
    (get : String → Except GoErr HttpResponse)
    (decodeCost : List Nat → Except GoErr UploadCost) :
    List Int → Except GoErr (List UploadCost) × List String
  | [] => (.ok [], [])
  | byteCount :: rest =>
    let url := costUrl paymentURL byteCount
    match costStep paymentURL get decodeCost byteCount with
    | .error e => (.error e, [url])
    | .ok cost =>
      match GetUploadCosts paymentURL get decodeCost rest with
      | (.error e, urls) => (.error e, url :: urls)
      | (.ok costs, urls) => (.ok (cost :: costs), url :: urls)

/-- `pkg/types`: `ProgressEvent`. -/
structure ProgressEvent where
  totalBytes : Int
  processedBytes : Int
  step : String
deriving DecidableEq, Repr

/-- `pkg/types`: `ErrorEvent`. -/
structure ErrorEvent where
  error : GoErr
  step : String
deriving DecidableEq, Repr

/-- `pkg/types`: `UploadResult`. -/
structure UploadResult where
  id : String
  owner : String
  dataCaches : List String
  fastFinalityIndexes : List String
  deadlineHeight : Int
  block : Int
  validatorSet : List String
  timestamp : Int
deriving DecidableEq, Repr

/-- `pkg/types`: `UploadEvents` — one flag per callback slot, recording
whether that function field is non-nil (set callbacks are observed through
the action trace; a nil slot is skipped by the emitting code). -/
structure UploadEvents where
  onProgress : Bool
  onSigningStart : Bool
  onSigningSuccess : Bool
  onSigningError : Bool
  onError : Bool
  onUploadStart : Bool
  onUploadSuccess : Bool
  onUploadError : Bool
deriving DecidableEq, Repr

/-- The `UploadEvents` value with every callback slot set. -/
def allEvents : UploadEvents :=
  { onProgress := true, onSigningStart := true, onSigningSuccess := true,
    onSigningError := true, onError := true, onUploadStart := true,
    onUploadSuccess := true, onUploadError := true }

/-- One observable callback invocation. -/
inductive Event where
  | onProgress (e : ProgressEvent)
  | onSigningStart
  | onSigningSuccess
  | onSigningError (err : GoErr)
  | onError (e : ErrorEvent)
  | onUploadStart
  | onUploadSuccess (result : UploadResult)
  | onUploadError (err : GoErr)
deriving DecidableEq, Repr

/-- An observable action of the upload pipeline, in program order:
a callback invocation, a `SignDataItem` call, creating the data stream via
the stream factory, closing that stream, or an HTTP POST. -/
inductive Action where
  | event (e : Event)
  | signCall (ctx : Ctx) (item : DataItem)
  | streamCreate
  | streamClose
  | postCall (ctx : Ctx) (url : String)
deriving DecidableEq, Repr

/-- The Go guard `req.Events != nil && req.Events.OnX != nil`, for the slot
selected by `sel`. -/
def evFlag (events : Option UploadEvents) (sel : UploadEvents → Bool) : Bool :=
  match events with
  | none => false
  | some cfg => sel cfg

/-- A guarded callback invocation: the event is emitted exactly when the
corresponding slot is set. -/
def emit (events : Option UploadEvents) (sel : UploadEvents → Bool) (e : Event) : List Action :=
  if evFlag events sel then [.event e] else []

/-- The callback invocations of a trace, in order. -/
def eventsOf (trace : List Action) : List Event :=
  trace.filterMap (fun a =>
    match a with
    | .event e => some e
    | _ => none)

/-- The HTTP POST calls of a trace: (context, url) pairs, in order. -/
def postCalls (trace : List Action) : List (Ctx × String) :=
  trace.filterMap (fun a =>
    match a with
    | .postCall ctx url => some (ctx, url)
    | _ => none)

/-- The `SignDataItem` calls of a trace: (context, data item) pairs. -/
def signCalls (trace : List Action) : List (Ctx × DataItem) :=
  trace.filterMap (fun a =>
    match a with
    | .signCall ctx item => some (ctx, item)
    | _ => none)

/-- The context an action carries, if it carries one. -/
def ctxOfAction : Action → Option Ctx
  | .signCall ctx _ => some ctx
  | .postCall ctx _ => some ctx
  | _ => none

/-- The callback-slot flag governing an event, under configuration `cfg`:
an event is invoked by the pipeline exactly when its slot is set. -/
def eventFlag (cfg : UploadEvents) : Event → Bool
  | .onProgress _ => cfg.onProgress
  | .onSigningStart => cfg.onSigningStart
  | .onSigningSuccess => cfg.onSigningSuccess
  | .onSigningError _ => cfg.onSigningError
  | .onError _ => cfg.onError
  | .onUploadStart => cfg.onUploadStart
  | .onUploadSuccess _ => cfg.onUploadSuccess
  | .onUploadError _ => cfg.onUploadError

/-- `pkg/types`: `SignedDataItemUploadRequest`.  The single invocation of
`DataItemStreamFactory()` is modelled by its outcome `streamFactory`
(error, or the byte content the fresh stream yields); the constant
`DataItemSizeFactory` is the value `size`. -/
structure SignedDataItemUploadRequest where
  streamFactory : Except GoErr (List Nat)
  size : Int
  events : Option UploadEvents
  context : Option Ctx
deriving Repr

/-- `pkg/turbo/client.go` `unauthenticatedClient.UploadSignedDataItem`.
`post` is the transport oracle (`httpClient.Post` applied to the context,
URL and streamed body); `decodeResult` is the JSON-decoding oracle used by
`ParseJSON`.  The deferred `dataStream.Close()` appears as a final
`streamClose` action on every exit path that created the stream. -/
def UploadSignedDataItem (ctx : Ctx) (req : Option SignedDataItemUploadRequest)
    (post : Ctx → String → List Nat → Except GoErr HttpResponse)
    (decodeResult : List Nat → Except GoErr UploadResult)
    (uploadURL : String) : Except GoErr UploadResult × List Action :=
  match req with
  | none => (.error (.msg "upload request is required"), [])
  | some req =>
    match req.streamFactory with
    | .error e => (.error (.wrap "failed to create data stream" e), [])
    | .ok body =>
      let t0 : List Action := [.streamCreate]
      let t1 := emit req.events (fun c => c.onUploadStart) .onUploadStart ++
        emit req.events (fun c => c.onProgress)
          (.onProgress { totalBytes := req.size, processedBytes := 0, step := "uploading" })
      let url := uploadURL ++ "/v1/tx"
      match post ctx url body with
      | .error e =>
        (.error (.wrap "failed to upload data item" e),
          t0 ++ t1 ++ [.postCall ctx url] ++
            emit req.events (fun c => c.onUploadError) (.onUploadError e) ++
            emit req.events (fun c => c.onError) (.onError { error := e, step := "uploading" }) ++
            [.streamClose])
      | .ok resp =>
        match ParseJSON decodeResult resp with
        | .error e =>
          (.error e,
            t0 ++ t1 ++ [.postCall ctx url] ++
              emit req.events (fun c => c.onUploadError) (.onUploadError e) ++
              emit req.events (fun c => c.onError) (.onError { error := e, step := "uploading" }) ++
              [.streamClose])
        | .ok result =>
          (.ok result,
            t0 ++ t1 ++ [.postCall ctx url] ++
              emit req.events (fun c => c.onUploadSuccess) (.onUploadSuccess result) ++
              emit req.events (fun c => c.onProgress)
                (.onProgress { totalBytes := req.size, processedBytes := req.size, step := "uploading" }) ++
              [.streamClose])

/-- `pkg/types`: `UploadRequest`.  `data` is the `Data` byte slice when
non-nil; `dataReader` models a non-nil `DataReader` by the outcome of
fully draining it with `io.ReadAll`. -/
structure UploadRequest where
  data : Option (List Nat)
  dataReader : Option (Except GoErr (List Nat))
  tags : List Tag
  target : String
  anchor : String
  events : Option UploadEvents
  context : Option Ctx
deriving Repr

/-- `pkg/turbo/authenticated.go` `Upload`, data-source resolution
(lines 56-68): use `Data` if non-nil, else drain `DataReader` (wrapping a
read failure), else fail. -/
def resolveData (req : UploadRequest) : Except GoErr (List Nat) :=
  match req.data with
  | some d => .ok d
  | none =>
    match req.dataReader with
    | some (.ok d) => .ok d
    | some (.error e) => .error (.wrap "failed to read data" e)
    | none => .error (.msg "either Data or DataReader must be provided")

/-- `pkg/turbo/authenticated.go` `Upload`, context selection (lines 70-74):
the request's context supersedes the argument when non-nil. -/
def chosenCtx (ctx : Ctx) (req : UploadRequest) : Ctx :=
  match req.context with
  | some c => c
  | none => ctx

/-- `pkg/turbo/authenticated.go` `authenticatedClient.Upload`.  The signer's
`SignDataItem` is the oracle `sign` (applied to the chosen context and the
constructed data item, and recorded as a `signCall` action); the transport
and JSON decoding oracles are passed through to `UploadSignedDataItem`.
The stream factory built on success wraps `bundleItem.ItemBinary` in a
fresh reader (never failing), and the size factory returns its length. -/
def Upload (ctx : Ctx) (req : Option UploadRequest)
    (sign : Ctx → DataItem → Except GoErr BundleItem)
    (post : Ctx → String → List Nat → Except GoErr HttpResponse)
    (decodeResult : List Nat → Except GoErr UploadResult)
    (uploadURL : String) : Except GoErr UploadResult × List Action :=
  match req with
  | none => (.error (.msg "upload request is required"), [])
  | some req =>
    match resolveData req with
    | .error e => (.error e, [])
    | .ok data =>
      let uploadCtx := chosenCtx ctx req
      let t1 := emit req.events (fun c => c.onProgress)
        (.onProgress { totalBytes := (data.length : Int), processedBytes := 0, step := "signing" })
      let dataItem := CreateDataItem data req.tags req.target req.anchor
      match sign uploadCtx dataItem with
      | .error err =>
        (.error (.wrap "failed to sign data item" err),
          t1 ++ [.signCall uploadCtx dataItem] ++
            emit req.events (fun c => c.onSigningError) (.onSigningError err) ++
            emit req.events (fun c => c.onError) (.onError { error := err, step := "signing" }))
      | .ok bundleItem =>
        let t2 := emit req.events (fun c => c.onSigningSuccess) .onSigningSuccess ++
          emit req.events (fun c => c.onProgress)
            (.onProgress { totalBytes := (data.length : Int),
                           processedBytes := (data.length : Int), step := "signing" })
        let uploadReq : SignedDataItemUploadRequest :=
          { streamFactory := .ok bundleItem.itemBinary
            size := (bundleItem.itemBinary.length : Int)
            events := req.events
            context := some uploadCtx }
        let sub := UploadSignedDataItem uploadCtx (some uploadReq) post decodeResult uploadURL
        (sub.1, t1 ++ [.signCall uploadCtx dataItem] ++ t2 ++ sub.2)

/-! ### Helper lemmas about traces -/

@[simp] theorem eventsOf_nil : eventsOf [] = [] := rfl

@[simp] theorem eventsOf_append (l₁ l₂ : List Action) :
    eventsOf (l₁ ++ l₂) = eventsOf l₁ ++ eventsOf l₂ := by
  simp [eventsOf]

@[simp] theorem eventsOf_cons_event (e : Event) (l : List Action) :
    eventsOf (.event e :: l) = e :: eventsOf l := rfl

@[simp] theorem eventsOf_cons_signCall (c : Ctx) (i : DataItem) (l : List Action) :
    eventsOf (.signCall c i :: l) = eventsOf l := rfl

@[simp] theorem eventsOf_cons_streamCreate (l : List Action) :
    eventsOf (.streamCreate :: l) = eventsOf l := rfl

@[simp] theorem eventsOf_cons_streamClose (l : List Action) :
    eventsOf (.streamClose :: l) = eventsOf l := rfl

@[simp] theorem eventsOf_cons_postCall (c : Ctx) (u : String) (l : List Action) :
    eventsOf (.postCall c u :: l) = eventsOf l := rfl

@[simp] theorem eventsOf_emit (ev : Option UploadEvents) (sel : UploadEvents → Bool) (e : Event) :
    eventsOf (emit ev sel e) = if evFlag ev sel then [e] else [] := by
  unfold emit
  by_cases h : evFlag ev sel <;> simp [h, eventsOf]

@[simp] theorem postCalls_nil : postCalls [] = [] := rfl

@[simp] theorem postCalls_append (l₁ l₂ : List Action) :
    postCalls (l₁ ++ l₂) = postCalls l₁ ++ postCalls l₂ := by
  simp [postCalls]

@[simp] theorem postCalls_cons_event (e : Event) (l : List Action) :
    postCalls (.event e :: l) = postCalls l := rfl

@[simp] theorem postCalls_cons_signCall (c : Ctx) (i : DataItem) (l : List Action) :
    postCalls (.signCall c i :: l) = postCalls l := rfl

@[simp] theorem postCalls_cons_streamCreate (l : List Action) :
    postCalls (.streamCreate :: l) = postCalls l := rfl

@[simp] theorem postCalls_cons_streamClose (l : List Action) :
    postCalls (.streamClose :: l) = postCalls l := rfl

@[simp] theorem postCalls_cons_postCall (c : Ctx) (u : String) (l : List Action) :
    postCalls (.postCall c u :: l) = (c, u) :: postCalls l := rfl

@[simp] theorem postCalls_emit (ev : Option UploadEvents) (sel : UploadEvents → Bool) (e : Event) :
    postCalls (emit ev sel e) = [] := by
  unfold emit
  by_cases h : evFlag ev sel <;> simp [h, postCalls]

@[simp] theorem signCalls_nil : signCalls [] = [] := rfl

@[simp] theorem signCalls_append (l₁ l₂ : List Action) :
    signCalls (l₁ ++ l₂) = signCalls l₁ ++ signCalls l₂ := by
  simp [signCalls]

@[simp] theorem signCalls_cons_event (e : Event) (l : List Action) :
    signCalls (.event e :: l) = signCalls l := rfl

@[simp] theorem signCalls_cons_signCall (c : Ctx) (i : DataItem) (l : List Action) :
    signCalls (.signCall c i :: l) = (c, i) :: signCalls l := rfl

@[simp] theorem signCalls_cons_streamCreate (l : List Action) :
    signCalls (.streamCreate :: l) = signCalls l := rfl

@[simp] theorem signCalls_cons_streamClose (l : List Action) :
    signCalls (.streamClose :: l) = signCalls l := rfl

@[simp] theorem signCalls_cons_postCall (c : Ctx) (u : String) (l : List Action) :
    signCalls (.postCall c u :: l) = signCalls l := rfl

@[simp] theorem signCalls_emit (ev : Option UploadEvents) (sel : UploadEvents → Bool) (e : Event) :
    signCalls (emit ev sel e) = [] := by
  unfold emit
  by_cases h : evFlag ev sel <;> simp [h, signCalls]

@[simp] theorem count_streamClose_emit (ev : Option UploadEvents) (sel : UploadEvents → Bool)
    (e : Event) : (emit ev sel e).count Action.streamClose = 0 := by
  unfold emit
  by_cases h : evFlag ev sel <;> simp [h]

/-! ### Claim theorems -/

/-- C6: `CreateDataItem` stores the input data byte-for-byte and the input
tag sequence unchanged, and the tag conversion performed inside
`SignDataItem` before handing the tags to the item signer preserves length
and maps the `i`-th tag to the `i`-th converted tag; `ArweaveSignDataItem`
invokes its signing oracle on exactly the constructed data, target, anchor
and order-preserved converted tags. -/
theorem createDataItem_preserves_data_and_tag_order
    (data : List Nat) (tags : List Tag) (target anchor : String) :
    (CreateDataItem data tags target anchor).data = data ∧
    (CreateDataItem data tags target anchor).tags = tags ∧
    (goarTagsOf tags).length = tags.length ∧
    (∀ i (h : i < tags.length) (h2 : i < (goarTagsOf tags).length),
      (goarTagsOf tags).get ⟨i, h2⟩ =
        { name := (tags.get ⟨i, h⟩).name, value := (tags.get ⟨i, h⟩).value }) ∧
    (∀ createAndSignItem,
      ArweaveSignDataItem createAndSignItem (CreateDataItem data tags target anchor) =
        match createAndSignItem data target anchor (goarTagsOf tags) with
        | .error err => .error (.wrap "failed to create and sign data item" err)
        | .ok bundleItem =>
          if bundleItem.itemBinary.length = 0 then
            .error (.msg "failed to generate signed data item binary")
          else
            .ok bundleItem) := by
  refine ⟨rfl, rfl, by simp [goarTagsOf], ?_, ?_⟩
  · intro i h h2
    simp [goarTagsOf, List.get_eq_getElem]
  · intro createAndSignItem
    rfl

/-- C6 witness: concrete instantiation with two tags in caller order. -/
theorem createDataItem_preserves_data_and_tag_order_witness :
    (goarTagsOf [Tag.mk "a" "1", Tag.mk "a" "2"]).get ⟨1, by decide⟩ =
      { name := ([Tag.mk "a" "1", Tag.mk "a" "2"].get ⟨1, by decide⟩).name,
        value := ([Tag.mk "a" "1", Tag.mk "a" "2"].get ⟨1, by decide⟩).value } :=
  (createDataItem_preserves_data_and_tag_order [7] [Tag.mk "a" "1", Tag.mk "a" "2"] "" "").2.2.2.1
    1 (by decide) (by decide)

/-- C7: whenever `SignDataItem` (Arweave or Ethereum variant) returns
without error, the returned bundle item's binary is non-empty; a
zero-length binary produced by the underlying signing step becomes a
returned error even when that step reported no error. -/
theorem signDataItem_nonzero_binary_on_success
    (createAndSignItem : List Nat → String → String → List GoarTag → Except GoErr BundleItem)
    (item : DataItem) :
    (∀ bundle, ArweaveSignDataItem createAndSignItem item = .ok bundle →
      bundle.itemBinary.length ≠ 0) ∧
    (∀ bundle, EthereumSignDataItem createAndSignItem item = .ok bundle →
      bundle.itemBinary.length ≠ 0) ∧
    (∀ bundle,
      createAndSignItem item.data item.target item.anchor (goarTagsOf item.tags) = .ok bundle →
      bundle.itemBinary.length = 0 →
      ArweaveSignDataItem createAndSignItem item =
        .error (.msg "failed to generate signed data item binary")) ∧
    (∀ bundle,
      createAndSignItem item.data item.target item.anchor (goarTagsOf item.tags) = .ok bundle →
      bundle.itemBinary.length = 0 →
      EthereumSignDataItem createAndSignItem item =
        .error (.msg "failed to generate signed data item binary")) := by
  refine ⟨?_, ?_, ?_, ?_⟩ <;> intro bundle
  · intro hok
    rcases h : createAndSignItem item.data item.target item.anchor (goarTagsOf item.tags) with e | b
    · simp only [ArweaveSignDataItem, h] at hok
      exact absurd hok (by simp)
    · simp only [ArweaveSignDataItem, h] at hok
      by_cases hz : b.itemBinary.length = 0
      · simp [hz] at hok
      · simp [hz] at hok
        rw [← hok]
        exact hz
  · intro hok
    rcases h : createAndSignItem item.data item.target item.anchor (goarTagsOf item.tags) with e | b
    · simp only [EthereumSignDataItem, h] at hok
      exact absurd hok (by simp)
    · simp only [EthereumSignDataItem, h] at hok
      by_cases hz : b.itemBinary.length = 0
      · simp [hz] at hok
      · simp [hz] at hok
        rw [← hok]
        exact hz
  · intro hstep hz
    simp only [ArweaveSignDataItem, hstep]
    simp [hz]
  · intro hstep hz
    simp only [EthereumSignDataItem, hstep]
    simp [hz]

/-- C7 witness: a signing oracle that reports success with an empty binary
is converted into an error, and a successful result has a non-empty
binary. -/
theorem signDataItem_nonzero_binary_on_success_witness :
    ArweaveSignDataItem (fun _ _ _ _ => .ok { itemBinary := [], id := "x" })
        { data := [1], tags := [], target := "", anchor := "" } =
      .error (.msg "failed to generate signed data item binary") ∧
    ({ itemBinary := [5], id := "y" } : BundleItem).itemBinary.length ≠ 0 :=
  ⟨(signDataItem_nonzero_binary_on_success (fun _ _ _ _ => .ok { itemBinary := [], id := "x" })
      { data := [1], tags := [], target := "", anchor := "" }).2.2.1
      { itemBinary := [], id := "x" } rfl rfl,
   (signDataItem_nonzero_binary_on_success (fun _ _ _ _ => .ok { itemBinary := [5], id := "y" })
      { data := [1], tags := [], target := "", anchor := "" }).1
      { itemBinary := [5], id := "y" } rfl⟩

/-- C3: when both `Data` and `DataReader` are nil, `Upload` returns the
validation error and performs nothing observable: no signer call, no
transport call, no event callback. -/
theorem upload_missing_data_validation
    (ctx : Ctx) (req : UploadRequest)
    (sign : Ctx → DataItem → Except GoErr BundleItem)
    (post : Ctx → String → List Nat → Except GoErr HttpResponse)
    (decodeResult : List Nat → Except GoErr UploadResult)
    (uploadURL : String)
    (hdata : req.data = none) (hreader : req.dataReader = none) :
    Upload ctx (some req) sign post decodeResult uploadURL =
      (.error (.msg "either Data or DataReader must be provided"), []) ∧
    eventsOf (Upload ctx (some req) sign post decodeResult uploadURL).2 = [] ∧
    signCalls (Upload ctx (some req) sign post decodeResult uploadURL).2 = [] ∧
    postCalls (Upload ctx (some req) sign post decodeResult uploadURL).2 = [] := by
  have h : Upload ctx (some req) sign post decodeResult uploadURL =
      (.error (.msg "either Data or DataReader must be provided"), []) := by
    simp [Upload, resolveData, hdata, hreader]
  refine ⟨h, ?_, ?_, ?_⟩ <;> simp [h]

/-- Fixture: an upload request with neither `Data` nor `DataReader` set. -/
def emptyUploadRequest : UploadRequest where
  data := none
  dataReader := none
  tags := []
  target := ""
  anchor := ""
  events := some allEvents
  context := none

/-- C3 witness: the empty request at concrete oracles. -/
theorem upload_missing_data_validation_witness :
    Upload 0 (some emptyUploadRequest)
      (fun _ _ => .ok { itemBinary := [1], id := "i" })
      (fun _ _ _ => .ok { statusCode := 200, body := [] })
      (fun _ => .error (.msg "d")) "u" =
      (.error (.msg "either Data or DataReader must be provided"), []) :=
  (upload_missing_data_validation 0 emptyUploadRequest
    (fun _ _ => .ok { itemBinary := [1], id := "i" })
    (fun _ _ _ => .ok { statusCode := 200, body := [] })
    (fun _ => .error (.msg "d")) "u" rfl rfl).1

/-- C4: `GetBalance` returns the default zero balance, and no error, both
when the GET yields HTTP 404 and when it yields a 2xx response whose
decoded `winc` field is empty. -/
theorem getBalance_zero_on_404_or_empty_winc
    (paymentURL token address : String)
    (get : String → Except GoErr HttpResponse)
    (decodeBalance : List Nat → Except GoErr Balance) :
    (∀ resp, get (balanceUrl paymentURL token address) = .ok resp →
      resp.statusCode = 404 →
      GetBalance paymentURL token address get decodeBalance = .ok defaultBalance) ∧
    (∀ resp b, get (balanceUrl paymentURL token address) = .ok resp →
      200 ≤ resp.statusCode → resp.statusCode < 300 →
      decodeBalance resp.body = .ok b → b.winC = "" →
      GetBalance paymentURL token address get decodeBalance = .ok defaultBalance) := by
  constructor
  · intro resp hget h404
    simp [GetBalance, hget, h404]
  · intro resp b hget hlo hhi hdec hwinc
    have h404 : resp.statusCode ≠ 404 := by omega
    have hps : ParseJSON decodeBalance resp = .ok b := by
      unfold ParseJSON
      rw [if_neg (by omega)]
      rw [hdec]
    simp [GetBalance, hget, h404, hps, hwinc]

/-- C4 witness: a 404 response and a 200 response with empty `winc` both
yield the default balance. -/
theorem getBalance_zero_on_404_or_empty_winc_witness :
    GetBalance "p" "arweave" "addr"
        (fun _ => .ok { statusCode := 404, body := [1, 2] })
        (fun _ => .error (.msg "never")) = .ok defaultBalance ∧
    GetBalance "p" "arweave" "addr"
        (fun _ => .ok { statusCode := 200, body := [] })
        (fun _ => .ok { winC := "", credits := "", currency := "" }) = .ok defaultBalance :=
  ⟨(getBalance_zero_on_404_or_empty_winc "p" "arweave" "addr"
      (fun _ => .ok { statusCode := 404, body := [1, 2] })
      (fun _ => .error (.msg "never"))).1
      { statusCode := 404, body := [1, 2] } rfl rfl,
   (getBalance_zero_on_404_or_empty_winc "p" "arweave" "addr"
      (fun _ => .ok { statusCode := 200, body := [] })
      (fun _ => .ok { winC := "", credits := "", currency := "" })).2
      { statusCode := 200, body := [] } { winC := "", credits := "", currency := "" }
      rfl (by decide) (by decide) rfl rfl⟩

/-- C8 counterexample: `HTTPClient.Do` only treats statuses `>= 400` as
errors, so an HTTP 300 response — outside the 2xx range — is returned to
the caller with no error at all, contradicting the claim that every
non-2xx response is surfaced as an error. -/
theorem do_returns_3xx_without_error_counterexample :
    ((300 : Nat) < 200 ∨ (300 : Nat) ≥ 300) ∧ (DoProcessResponse 300 []).2 = none := by
  constructor
  · right
    decide
  · decide

/-- C8 amended: `ParseJSON` (the response mapper of `pkg/turbo/client.go`)
surfaces every non-2xx status as an error carrying the status code and the
raw body, and never returns such a response as a success; `HTTPClient.Do`
surfaces every status `>= 400` as an error carrying the status code and
raw body, but passes 3xx statuses through without error. -/
theorem transport_status_error_carries_status_and_body :
    (∀ {α : Type} (decode : List Nat → Except GoErr α) (resp : HttpResponse),
      resp.statusCode < 200 ∨ 300 ≤ resp.statusCode →
      ParseJSON decode resp = .error (.httpStatus resp.statusCode resp.body)) ∧
    (∀ status respBody, 400 ≤ status →
      (DoProcessResponse status respBody).2 = some (.httpStatus status respBody)) ∧
    (∀ status respBody, status < 400 →
      (DoProcessResponse status respBody).2 = none) := by
  refine ⟨?_, ?_, ?_⟩
  · intro α decode resp h
    simp [ParseJSON, h]
  · intro status respBody h
    simp [DoProcessResponse, h]
  · intro status respBody h
    have : ¬ 400 ≤ status := by omega
    simp [DoProcessResponse, this]

/-- C8 amended witness: a 404 response through `ParseJSON` and a 500
response through `Do` both carry status and body in the error. -/
theorem transport_status_error_carries_status_and_body_witness :
    ParseJSON (fun _ => Except.ok defaultBalance) { statusCode := 404, body := [7] } =
      .error (.httpStatus 404 [7]) ∧
    (DoProcessResponse 500 [8]).2 = some (.httpStatus 500 [8]) :=
  ⟨transport_status_error_carries_status_and_body.1
      (fun _ => Except.ok defaultBalance) { statusCode := 404, body := [7] }
      (Or.inr (by decide)),
   transport_status_error_carries_status_and_body.2.1 500 [8] (by decide)⟩


/-- C1: with a resolvable data source, a signer that succeeds, and a POST
that succeeds with a 2xx, JSON-decodable body, `Upload` returns the decoded
result and invokes exactly, in order: progress(signing, 0),
signingSuccess, progress(signing, total), uploadStart,
progress(uploading, 0), uploadSuccess(result), progress(uploading, total)
— each filtered only by whether its callback slot is registered, and no
error callback is invoked. -/
theorem upload_success_event_sequence
    (ctx : Ctx) (req : UploadRequest)
    (sign : Ctx → DataItem → Except GoErr BundleItem)
    (post : Ctx → String → List Nat → Except GoErr HttpResponse)
    (decodeResult : List Nat → Except GoErr UploadResult)
    (uploadURL : String) (cfg : UploadEvents) (data : List Nat)
    (item : BundleItem) (resp : HttpResponse) (result : UploadResult)
    (hdata : resolveData req = .ok data)
    (hev : req.events = some cfg)
    (hsign : sign (chosenCtx ctx req) (CreateDataItem data req.tags req.target req.anchor) = .ok item)
    (hpost : post (chosenCtx ctx req) (uploadURL ++ "/v1/tx") item.itemBinary = .ok resp)
    (hlo : 200 ≤ resp.statusCode) (hhi : resp.statusCode < 300)
    (hdec : decodeResult resp.body = .ok result) :
    (Upload ctx (some req) sign post decodeResult uploadURL).1 = .ok result ∧
    eventsOf (Upload ctx (some req) sign post decodeResult uploadURL).2 =
      ([.onProgress { totalBytes := (data.length : Int), processedBytes := 0, step := "signing" },
        .onSigningSuccess,
        .onProgress { totalBytes := (data.length : Int), processedBytes := (data.length : Int), step := "signing" },
        .onUploadStart,
        .onProgress { totalBytes := (item.itemBinary.length : Int), processedBytes := 0, step := "uploading" },
        .onUploadSuccess result,
        .onProgress { totalBytes := (item.itemBinary.length : Int), processedBytes := (item.itemBinary.length : Int), step := "uploading" }] : List Event).filter (eventFlag cfg) := by
  have hps : ParseJSON decodeResult resp = .ok result := by
    unfold ParseJSON
    rw [if_neg (by omega), hdec]
  simp only [Upload, UploadSignedDataItem, hdata, hsign, hpost, hps, hev]
  constructor
  · trivial
  · obtain ⟨p, s0, s1, s2, oe, u0, u1, u2⟩ := cfg
    simp only [eventsOf_append, eventsOf_emit, eventsOf_cons_event, eventsOf_cons_signCall,
      eventsOf_cons_streamCreate, eventsOf_cons_streamClose, eventsOf_cons_postCall,
      eventsOf_nil, evFlag, eventFlag, List.filter]
    cases p <;> cases s1 <;> cases u0 <;> cases u1 <;> simp


/-- C2: when the signer fails, `Upload` emits progress(signing, 0), then
signingError with that error, then the generic error with step "signing",
returns the wrapped error, makes no transport call, and emits no
upload-stage event. -/
theorem upload_signing_failure_events
    (ctx : Ctx) (req : UploadRequest)
    (sign : Ctx → DataItem → Except GoErr BundleItem)
    (post : Ctx → String → List Nat → Except GoErr HttpResponse)
    (decodeResult : List Nat → Except GoErr UploadResult)
    (uploadURL : String) (cfg : UploadEvents) (data : List Nat) (err : GoErr)
    (hdata : resolveData req = .ok data)
    (hev : req.events = some cfg)
    (hsign : sign (chosenCtx ctx req) (CreateDataItem data req.tags req.target req.anchor) = .error err) :
    (Upload ctx (some req) sign post decodeResult uploadURL).1 =
      .error (.wrap "failed to sign data item" err) ∧
    eventsOf (Upload ctx (some req) sign post decodeResult uploadURL).2 =
      ([.onProgress { totalBytes := (data.length : Int), processedBytes := 0, step := "signing" },
        .onSigningError err,
        .onError { error := err, step := "signing" }] : List Event).filter (eventFlag cfg) ∧
    postCalls (Upload ctx (some req) sign post decodeResult uploadURL).2 = [] := by
  simp only [Upload, hdata, hsign, hev]
  refine ⟨trivial, ?_, ?_⟩
  · obtain ⟨p, s0, s1, s2, oe, u0, u1, u2⟩ := cfg
    simp only [eventsOf_append, eventsOf_emit, eventsOf_cons_event, eventsOf_cons_signCall,
      eventsOf_nil, evFlag, eventFlag, List.filter]
    cases p <;> cases s2 <;> cases oe <;> simp
  · simp

/-- C9: whenever the stream factory succeeds, `UploadSignedDataItem`
closes the obtained stream exactly once, as its final action, on every
exit path (POST failure, decode failure, non-2xx status, and success),
for all transport and decode oracle behaviours. -/
theorem uploadSignedDataItem_always_closes_stream
    (ctx : Ctx) (req : SignedDataItemUploadRequest)
    (post : Ctx → String → List Nat → Except GoErr HttpResponse)
    (decodeResult : List Nat → Except GoErr UploadResult)
    (uploadURL : String) (body : List Nat)
    (hstream : req.streamFactory = .ok body) :
    (UploadSignedDataItem ctx (some req) post decodeResult uploadURL).2.count .streamClose = 1 ∧
    (UploadSignedDataItem ctx (some req) post decodeResult uploadURL).2.getLast? =
      some .streamClose := by
  simp only [UploadSignedDataItem, hstream]
  rcases hp : post ctx (uploadURL ++ "/v1/tx") body with e | resp
  · constructor
    · simp [List.count_append]
    · exact List.getLast?_concat _
  · dsimp only
    rcases hps : ParseJSON decodeResult resp with e | result
    · dsimp only
      constructor
      · simp [List.count_append]
      · exact List.getLast?_concat _
    · dsimp only
      constructor
      · simp [List.count_append]
      · exact List.getLast?_concat _

/-- C10: the context used by `Upload` for the signer call and for the
upload POST is the request's `Context` whenever that is non-nil, and the
`ctx` argument otherwise; every recorded signer call and POST call carries
exactly the chosen context. -/
theorem upload_request_context_supersedes
    (ctx : Ctx) (req : UploadRequest)
    (sign : Ctx → DataItem → Except GoErr BundleItem)
    (post : Ctx → String → List Nat → Except GoErr HttpResponse)
    (decodeResult : List Nat → Except GoErr UploadResult)
    (uploadURL : String) :
    (∀ c, req.context = some c → chosenCtx ctx req = c) ∧
    (req.context = none → chosenCtx ctx req = ctx) ∧
    (∀ p ∈ signCalls (Upload ctx (some req) sign post decodeResult uploadURL).2,
      p.1 = chosenCtx ctx req) ∧
    (∀ p ∈ postCalls (Upload ctx (some req) sign post decodeResult uploadURL).2,
      p.1 = chosenCtx ctx req) := by
  refine ⟨fun c h => by simp [chosenCtx, h], fun h => by simp [chosenCtx, h], ?_⟩
  rcases hd : resolveData req with e | data
  · simp [Upload, hd]
  · rcases hs : sign (chosenCtx ctx req) (CreateDataItem data req.tags req.target req.anchor)
      with e | item
    · simp [Upload, hd, hs]
    · rcases hp : post (chosenCtx ctx req) (uploadURL ++ "/v1/tx") item.itemBinary with e | resp
      · simp [Upload, UploadSignedDataItem, hd, hs, hp]
      · rcases hps : ParseJSON decodeResult resp with e | result
        · simp [Upload, UploadSignedDataItem, hd, hs, hp, hps]
        · simp [Upload, UploadSignedDataItem, hd, hs, hp, hps]

/-- Fixture: a well-formed upload request used by the witnesses. -/
def fixtureRequest : UploadRequest where
  data := some [72, 105]
  dataReader := none
  tags := [{ name := "Content-Type", value := "text/plain" }]
  target := ""
  anchor := ""
  events := some allEvents
  context := some 7

/-- Fixture: a signer oracle that always succeeds with a 3-byte binary. -/
def fixtureSign : Ctx → DataItem → Except GoErr BundleItem :=
  fun _ _ => .ok { itemBinary := [9, 9, 9], id := "sig" }

/-- Fixture: a signer oracle that always fails. -/
def fixtureSignFail : Ctx → DataItem → Except GoErr BundleItem :=
  fun _ _ => .error (.msg "boom")

/-- Fixture: a transport oracle returning HTTP 200 with body `[4]`. -/
def fixturePost : Ctx → String → List Nat → Except GoErr HttpResponse :=
  fun _ _ _ => .ok { statusCode := 200, body := [4] }

/-- Fixture: the upload result produced by the witness decode oracle. -/
def fixtureResult : UploadResult where
  id := "abc123"
  owner := "ownerX"
  dataCaches := []
  fastFinalityIndexes := []
  deadlineHeight := 0
  block := 0
  validatorSet := []
  timestamp := 0

/-- Fixture: a JSON-decoding oracle producing `fixtureResult`. -/
def fixtureDecode : List Nat → Except GoErr UploadResult :=
  fun _ => .ok fixtureResult

/-- Fixture: a pre-signed upload request whose stream factory succeeds. -/
def fixtureSignedRequest : SignedDataItemUploadRequest where
  streamFactory := .ok [9, 9, 9]
  size := 3
  events := some allEvents
  context := none

/-- C1 witness: concrete successful upload emitting the full sequence. -/
theorem upload_success_event_sequence_witness :
    (Upload 3 (some fixtureRequest) fixtureSign fixturePost fixtureDecode "u").1 =
      .ok fixtureResult ∧
    eventsOf (Upload 3 (some fixtureRequest) fixtureSign fixturePost fixtureDecode "u").2 =
      ([.onProgress { totalBytes := 2, processedBytes := 0, step := "signing" },
        .onSigningSuccess,
        .onProgress { totalBytes := 2, processedBytes := 2, step := "signing" },
        .onUploadStart,
        .onProgress { totalBytes := 3, processedBytes := 0, step := "uploading" },
        .onUploadSuccess fixtureResult,
        .onProgress { totalBytes := 3, processedBytes := 3, step := "uploading" }] :
        List Event).filter (eventFlag allEvents) :=
  upload_success_event_sequence 3 fixtureRequest fixtureSign fixturePost fixtureDecode "u"
    allEvents [72, 105] { itemBinary := [9, 9, 9], id := "sig" }
    { statusCode := 200, body := [4] } fixtureResult rfl rfl rfl rfl (by decide) (by decide) rfl

/-- C2 witness: concrete failing signer emitting exactly the three
signing-stage events and making no transport call. -/
theorem upload_signing_failure_events_witness :
    (Upload 3 (some fixtureRequest) fixtureSignFail fixturePost fixtureDecode "u").1 =
      .error (.wrap "failed to sign data item" (.msg "boom")) ∧
    eventsOf (Upload 3 (some fixtureRequest) fixtureSignFail fixturePost fixtureDecode "u").2 =
      ([.onProgress { totalBytes := 2, processedBytes := 0, step := "signing" },
        .onSigningError (.msg "boom"),
        .onError { error := .msg "boom", step := "signing" }] :
        List Event).filter (eventFlag allEvents) ∧
    postCalls (Upload 3 (some fixtureRequest) fixtureSignFail fixturePost fixtureDecode "u").2 =
      [] :=
  upload_signing_failure_events 3 fixtureRequest fixtureSignFail fixturePost fixtureDecode "u"
    allEvents [72, 105] (.msg "boom") rfl rfl rfl

/-- C9 witness: the concrete pre-signed upload closes its stream exactly
once, as the final action. -/
theorem uploadSignedDataItem_always_closes_stream_witness :
    (UploadSignedDataItem 0 (some fixtureSignedRequest) fixturePost fixtureDecode "u").2.count
      Action.streamClose = 1 ∧
    (UploadSignedDataItem 0 (some fixtureSignedRequest) fixturePost fixtureDecode "u").2.getLast? =
      some Action.streamClose :=
  uploadSignedDataItem_always_closes_stream 0 fixtureSignedRequest fixturePost fixtureDecode "u"
    [9, 9, 9] rfl

/-- C10 witness: with `Context` set to 7 in the request and 3 passed as the
argument, 7 is chosen, and the recorded signer call carries context 7. -/
theorem upload_request_context_supersedes_witness :
    chosenCtx 3 fixtureRequest = 7 ∧
    (7, CreateDataItem [72, 105] fixtureRequest.tags "" "").1 = chosenCtx 3 fixtureRequest :=
  ⟨(upload_request_context_supersedes 3 fixtureRequest fixtureSign fixturePost
      fixtureDecode "u").1 7 rfl,
   (upload_request_context_supersedes 3 fixtureRequest fixtureSign fixturePost
      fixtureDecode "u").2.2.1
     (7, CreateDataItem [72, 105] fixtureRequest.tags "" "") (by decide)⟩

/-- C5: `GetUploadCosts` issues exactly one GET per byte count, in input
order; on all-success it returns one cost per count with the `i`-th cost
obtained from the `i`-th count's request, and on any individual failure it
returns that request's error with no partial result list, having requested
only the counts up to and including the failing one. -/
theorem getUploadCosts_one_get_per_count
    (paymentURL : String)
    (get : String → Except GoErr HttpResponse)
    (decodeCost : List Nat → Except GoErr UploadCost) :
    ∀ counts : List Int,
      (∀ costs, (GetUploadCosts paymentURL get decodeCost counts).1 = .ok costs →
        List.Forall₂ (fun c k => costStep paymentURL get decodeCost c = .ok k) counts costs ∧
        costs.length = counts.length ∧
        (GetUploadCosts paymentURL get decodeCost counts).2 = counts.map (costUrl paymentURL)) ∧
      (∀ e, (GetUploadCosts paymentURL get decodeCost counts).1 = .error e →
        ∃ done c rest, counts = done ++ c :: rest ∧
          (∀ x ∈ done, ∃ k, costStep paymentURL get decodeCost x = .ok k) ∧
          costStep paymentURL get decodeCost c = .error e ∧
          (GetUploadCosts paymentURL get decodeCost counts).2 =
            (done ++ [c]).map (costUrl paymentURL)) := by
  intro counts
  induction counts with
  | nil =>
    constructor
    · intro costs h
      simp only [GetUploadCosts] at h
      have hc : costs = [] := by simpa using h.symm
      subst hc
      exact ⟨List.Forall₂.nil, rfl, rfl⟩
    · intro e h
      simp only [GetUploadCosts] at h
      simp at h
  | cons c rest ih =>
    rcases hstep : costStep paymentURL get decodeCost c with e0 | k
    · constructor
      · intro costs h
        simp only [GetUploadCosts, hstep] at h
        simp at h
      · intro e h
        simp only [GetUploadCosts, hstep] at h
        have he : e = e0 := by simpa using h.symm
        subst he
        refine ⟨[], c, rest, rfl, by simp, hstep, ?_⟩
        simp [GetUploadCosts, hstep]
    · rcases hrec : GetUploadCosts paymentURL get decodeCost rest with ⟨r, urls⟩
      rcases r with e1 | costs'
      · constructor
        · intro costs h
          simp only [GetUploadCosts, hstep, hrec] at h
          simp at h
        · intro e h
          simp only [GetUploadCosts, hstep, hrec] at h
          have he : e = e1 := by simpa using h.symm
          subst he
          obtain ⟨done, c', rest', hsplit, hdone, hfail, hurls⟩ := ih.2 e (by rw [hrec])
          refine ⟨c :: done, c', rest', by simp [hsplit], ?_, hfail, ?_⟩
          · intro x hx
            rcases List.mem_cons.mp hx with hx | hx
            · exact ⟨k, by rw [hx]; exact hstep⟩
            · exact hdone x hx
          · simp only [GetUploadCosts, hstep, hrec]
            rw [hrec] at hurls
            simp only at hurls
            simp [hurls]
      · constructor
        · intro costs h
          simp only [GetUploadCosts, hstep, hrec] at h
          have hc : costs = k :: costs' := by simpa using h.symm
          subst hc
          obtain ⟨hfa, hlen, hurls⟩ := ih.1 costs' (by rw [hrec])
          rw [hrec] at hurls
          simp only at hurls
          refine ⟨List.Forall₂.cons hstep hfa, by simp [hlen], ?_⟩
          simp only [GetUploadCosts, hstep, hrec]
          simp [hurls]
        · intro e h
          simp only [GetUploadCosts, hstep, hrec] at h
          simp at h

/-- Fixture: a GET oracle for the price endpoint, keyed on the URL. -/
def fixtureCostGet : String → Except GoErr HttpResponse :=
  fun url =>
    if url = costUrl "p" 1024 then .ok { statusCode := 200, body := [0] }
    else .ok { statusCode := 200, body := [1] }

/-- Fixture: a cost-decoding oracle, keyed on the response body. -/
def fixtureCostDecode : List Nat → Except GoErr UploadCost :=
  fun b =>
    if b = [0] then .ok { winc := "1000", bytes := 1024 }
    else .ok { winc := "1000000", bytes := 1048576 }

/-- C5 witness: the concrete batch `[1024, 1048576]` yields the two costs
in input order, requesting exactly one URL per count. -/
theorem getUploadCosts_one_get_per_count_witness :
    List.Forall₂ (fun c k => costStep "p" fixtureCostGet fixtureCostDecode c = .ok k)
      [1024, 1048576]
      [{ winc := "1000", bytes := 1024 }, { winc := "1000000", bytes := 1048576 }] ∧
    ([{ winc := "1000", bytes := 1024 }, { winc := "1000000", bytes := 1048576 }] :
      List UploadCost).length = ([1024, 1048576] : List Int).length ∧
    (GetUploadCosts "p" fixtureCostGet fixtureCostDecode [1024, 1048576]).2 =
      ([1024, 1048576] : List Int).map (costUrl "p") :=
  (getUploadCosts_one_get_per_count "p" fixtureCostGet fixtureCostDecode [1024, 1048576]).1
    [{ winc := "1000", bytes := 1024 }, { winc := "1000000", bytes := 1048576 }] rfl

end Turbo
